import Mathlib

/-!
Verification development for the promotion detection and uplift engine of
the bidco-retail-analysis repository (src/analytics/promotions.py, with
src/utils/helpers.py, src/config.py, src/schema.py and
src/api/endpoints/promotions.py).

The dataset is embedded as a list of transaction records; polars
aggregations are embedded as list operations with the following polars
semantics (polars >= 0.20, the version pinned by setup.py):
  * mean and median skip null entries and return null when no non-null
    entry exists;
  * sum skips null entries and returns 0 when no non-null entry exists;
  * n_unique counts null as one distinct value;
  * a comparison with null is null, and when/then/otherwise sends a null
    condition to the otherwise branch;
  * str.contains performs a substring match (the patterns used here
    contain no regex metacharacters);
  * group_by produces one row per distinct key; the embedding lists the
    groups in order of first appearance (polars leaves the order
    unspecified), and Expr.first takes the first row of the group.
Numeric columns are embedded as rationals.

Pydantic model construction (schema.py) raises ValidationError when a
required field is missing from the keyword arguments; the embedding
records the required field names of each schema and the keyword names
passed at each construction site, and validates presence.  In pydantic v2
ValidationError subclasses ValueError, which the API endpoint maps to a
404 response.
-/

namespace Bidco

/- The core rational operations are shipped `@[irreducible]`; concrete
evaluation proofs below need them to unfold. -/
attribute [local semireducible] Rat.sub Rat.add Rat.mul Rat.inv

/-! ### Generic list helpers (polars aggregation semantics) -/

/-- ASCII lowercase of a character (the supplier strings this analysis
touches are ASCII). -/
def lowerChar (c : Char) : Char :=
  if 65 ≤ c.toNat ∧ c.toNat ≤ 90 then Char.ofNat (c.toNat + 32) else c

/-- ASCII lowercase of a string: Python `str.lower` / polars
`str.to_lowercase` restricted to ASCII data. -/
def lowerStr (s : String) : String :=
  ⟨s.toList.map lowerChar⟩

/-- Arithmetic mean of a list of rationals; `none` on the empty list
(polars `mean` of an empty column). -/
def listMean (l : List ℚ) : Option ℚ :=
  if l.isEmpty then none else some (l.sum / l.length)

/-- polars `mean` over a column with nulls: nulls are skipped; the result
is null when no non-null value exists. -/
def optMean (l : List (Option ℚ)) : Option ℚ :=
  listMean l.reduceOption

/-- Stable insertion into a list sorted ascending. -/
def insertAsc (a : ℚ) : List ℚ → List ℚ
  | [] => [a]
  | b :: l => if a ≤ b then a :: b :: l else b :: insertAsc a l

/-- Ascending sort by insertion. -/
def sortAsc : List ℚ → List ℚ
  | [] => []
  | a :: l => insertAsc a (sortAsc l)

/-- polars `median`: the middle element for odd length, the mean of the
two middle elements for even length, null for the empty column. -/
def listMedian (l : List ℚ) : Option ℚ :=
  let s := sortAsc l
  let n := s.length
  if n = 0 then none
  else if n % 2 = 1 then some (s.getD (n / 2) 0)
  else some ((s.getD (n / 2 - 1) 0 + s.getD (n / 2) 0) / 2)

/-- polars `median` over a column with nulls: nulls are skipped. -/
def optMedian (l : List (Option ℚ)) : Option ℚ :=
  listMedian l.reduceOption

/-- Distinct values of a list in order of first appearance; the
accumulator holds the values already seen. -/
def firstsAux [DecidableEq α] (seen : List α) : List α → List α
  | [] => []
  | a :: l => if a ∈ seen then firstsAux seen l else a :: firstsAux (a :: seen) l

/-- Distinct values of a list in order of first appearance. -/
def firsts [DecidableEq α] (l : List α) : List α :=
  firstsAux [] l

/-- polars `n_unique`: the number of distinct values; a null entry
(embedded as `none` over an option type) counts as one distinct value. -/
def nUnique [DecidableEq α] (l : List α) : Nat :=
  (firsts l).length

/-- The rows of `l` whose key is `k` (one polars group). -/
def groupOf [DecidableEq κ] (l : List β) (key : β → κ) (k : κ) : List β :=
  l.filter fun x => decide (key x = k)

/-- Substring test on character lists. -/
def subListOf [DecidableEq α] (pat : List α) : List α → Bool
  | [] => pat.isEmpty
  | c :: rest => pat.isPrefixOf (c :: rest) || subListOf pat rest

/-- `containsSub hay pat` models polars `str.contains` with a literal
pattern: does `hay` contain `pat` as a substring? -/
def containsSub (hay pat : String) : Bool :=
  subListOf pat.toList hay.toList

/-! ### Configuration (src/config.py) -/

/-- PromoConfig.discount_threshold_pct (config.py:26-29), default 10.0. -/
def discount_threshold_pct : ℚ := 10

/-- PromoConfig.min_promo_days (config.py:31-35), default 2. -/
def min_promo_days : Nat := 2

/-- PromoConfig.min_baseline_days (config.py:43-47), default 2. -/
def min_baseline_days : Nat := 2

/-- OutputConfig.top_n_items (config.py:169-174), default 10.  The promo
summary code path does not consult it: it takes head(5). -/
def top_n_items : Nat := 10

/-! ### Data model (schema.py RawTransactionRecord; one row of the input
dataframe with the columns the promo engine touches) -/

/-- One raw transaction record. -/
structure Txn where
  store : String
  item : Int
  descr : String
  supplier : String
  sub_department : String
  sect : String
  quantity : ℚ
  total_sales : ℚ
  rrp : Option ℚ
  sale_date : Int
  deriving DecidableEq, Repr

/-! ### Field derivation (src/utils/helpers.py) -/

/-- calculate_realized_price (helpers.py:11-20): Total Sales / Quantity
when Quantity is non-zero, else null. -/
def realized_unit_price (t : Txn) : Option ℚ :=
  if t.quantity ≠ 0 then some (t.total_sales / t.quantity) else none

/-- calculate_discount_pct (helpers.py:23-36): (RRP - realized) / RRP *
100 when RRP is present and non-zero; the expression is null when the
realized price is null. -/
def discount_pct (t : Txn) : Option ℚ :=
  match t.rrp, realized_unit_price t with
  | some r, some p => if r ≠ 0 then some ((r - p) / r * 100) else none
  | _, _ => none

/-- flag_bidco_products (helpers.py:39-45): lowercase supplier contains
"bidco". -/
def is_bidco (t : Txn) : Bool :=
  containsSub (lowerStr t.supplier) "bidco"

/-- filter_valid_transactions (helpers.py:64-92). -/
def filter_valid_transactions (l : List Txn) (allow_negatives allow_zeros : Bool) :
    List Txn :=
  l.filter fun t =>
    (allow_negatives || (decide (0 ≤ t.quantity) && decide (0 ≤ t.total_sales))) &&
    (allow_zeros || (decide (t.quantity ≠ 0) && decide (t.total_sales ≠ 0)))

/-- PromoDetector._prepare_data (promotions.py:45-64): derived columns
are computed on demand; the dataframe is filtered with
allow_negatives=False, allow_zeros=False.  (The day_key column built
there is never consulted afterwards.) -/
def prepared (txns : List Txn) : List Txn :=
  filter_valid_transactions txns false false

/-! ### detect_promos, first grouping: daily metrics
(promotions.py:71-92) -/

/-- Key of the (Store Name, Item_Code, Date Of Sale) grouping. -/
def dailyKey (t : Txn) : String × Int × Int :=
  (t.store, t.item, t.sale_date)

/-- One row of the `daily_data` frame (promotions.py:71-92). -/
structure DailyRow where
  store : String
  item : Int
  sale_date : Int
  descr : String
  supplier : String
  sub_department : String
  sect : String
  is_bidco : Bool
  daily_quantity : ℚ
  daily_sales : ℚ
  median_rrp : Option ℚ
  avg_discount_pct : Option ℚ
  daily_realized_price : ℚ
  is_promo_day : Bool
  deriving DecidableEq, Repr

/-- Builds the `daily_data` row of group `k` (promotions.py:71-92).
`is_promo_day` comes from the when/then/otherwise at lines 87-92: a null
mean discount falls to the otherwise branch, False. -/
def mkDailyRow (l : List Txn) (k : String × Int × Int) : DailyRow :=
  { store := k.1
    item := k.2.1
    sale_date := k.2.2
    descr := ((groupOf l dailyKey k).map (·.descr)).headD ""
    supplier := ((groupOf l dailyKey k).map (·.supplier)).headD ""
    sub_department := ((groupOf l dailyKey k).map (·.sub_department)).headD ""
    sect := ((groupOf l dailyKey k).map (·.sect)).headD ""
    is_bidco := ((groupOf l dailyKey k).map is_bidco).headD false
    daily_quantity := ((groupOf l dailyKey k).map (·.quantity)).sum
    daily_sales := ((groupOf l dailyKey k).map (·.total_sales)).sum
    median_rrp := optMedian ((groupOf l dailyKey k).map (·.rrp))
    avg_discount_pct := optMean ((groupOf l dailyKey k).map discount_pct)
    daily_realized_price :=
      ((groupOf l dailyKey k).map (·.total_sales)).sum /
        ((groupOf l dailyKey k).map (·.quantity)).sum
    is_promo_day :=
      match optMean ((groupOf l dailyKey k).map discount_pct) with
      | some v => decide (discount_threshold_pct ≤ v)
      | none => false }

/-- The `daily_data` frame: one row per (store, item, date) group of the
prepared dataset. -/
def detect_daily (txns : List Txn) : List DailyRow :=
  (firsts ((prepared txns).map dailyKey)).map (mkDailyRow (prepared txns))

/-! ### detect_promos, second grouping: per (store, SKU) summary with
status and uplift (promotions.py:95-182) -/

/-- schema.PromoStatus (schema.py:184-189). -/
inductive PromoStatus
  | on_promo
  | baseline
  | insufficient_data
  | invalid
  deriving DecidableEq, Repr

/-- Key of the (Store Name, Item_Code) grouping. -/
def skuKey (d : DailyRow) : String × Int :=
  (d.store, d.item)

/-- The daily rows of group `k`. -/
def skuG (daily : List DailyRow) (k : String × Int) : List DailyRow :=
  groupOf daily skuKey k

/-- The promo-day rows of group `k` (mask `is_promo_day`). -/
def skuPromoG (daily : List DailyRow) (k : String × Int) : List DailyRow :=
  (skuG daily k).filter (·.is_promo_day)

/-- The baseline-day rows of group `k` (mask `~is_promo_day`). -/
def skuBaseG (daily : List DailyRow) (k : String × Int) : List DailyRow :=
  (skuG daily k).filter (fun d => !d.is_promo_day)

/-- Minimum of a list of integers (for `Date Of Sale.min()`). -/
def listMinD : List Int → Int
  | [] => 0
  | a :: l => l.foldl min a

/-- Maximum of a list of integers (for `Date Of Sale.max()`). -/
def listMaxD : List Int → Int
  | [] => 0
  | a :: l => l.foldl max a

/-- One row of the `sku_store_summary` frame (promotions.py:95-182). -/
structure SkuStoreRow where
  store : String
  item : Int
  descr : String
  supplier : String
  sub_department : String
  sect : String
  is_bidco : Bool
  first_date : Int
  last_date : Int
  promo_days : Nat
  total_days : Nat
  baseline_days : Nat
  promo_quantity : ℚ
  promo_sales : ℚ
  avg_promo_price : Option ℚ
  avg_promo_discount : Option ℚ
  baseline_quantity : ℚ
  baseline_sales : ℚ
  avg_baseline_price : Option ℚ
  avg_rrp : Option ℚ
  promo_status : PromoStatus
  uplift_pct : Option ℚ
  deriving DecidableEq, Repr

/-- Builds the `sku_store_summary` row of group `k`.

* The masked aggregates (promotions.py:106-150) are written
  `when(mask).then(col).otherwise(None).sum()/.mean()`: the sum over a
  group whose mask is everywhere false is the polars sum of an all-null
  column, 0; the means are null in that case.
* `promo_days` is `is_promo_day.sum()` (count of true),
  `total_days` is `is_promo_day.len()`, `baseline_days` their
  difference (promotions.py:103-104,154-156).
* `promo_status` is the when/then chain at promotions.py:158-169.
* `uplift_pct` (promotions.py:171-180) is gated on
  `baseline_quantity > 0 & promo_quantity.is_not_null()`; the second
  conjunct is always true because the masked sum is never null. -/
def mkSkuRow (daily : List DailyRow) (k : String × Int) : SkuStoreRow :=
  { store := k.1
    item := k.2
    descr := ((skuG daily k).map (·.descr)).headD ""
    supplier := ((skuG daily k).map (·.supplier)).headD ""
    sub_department := ((skuG daily k).map (·.sub_department)).headD ""
    sect := ((skuG daily k).map (·.sect)).headD ""
    is_bidco := ((skuG daily k).map (·.is_bidco)).headD false
    first_date := listMinD ((skuG daily k).map (·.sale_date))
    last_date := listMaxD ((skuG daily k).map (·.sale_date))
    promo_days := (skuPromoG daily k).length
    total_days := (skuG daily k).length
    baseline_days := (skuG daily k).length - (skuPromoG daily k).length
    promo_quantity := ((skuPromoG daily k).map (·.daily_quantity)).sum
    promo_sales := ((skuPromoG daily k).map (·.daily_sales)).sum
    avg_promo_price := listMean ((skuPromoG daily k).map (·.daily_realized_price))
    avg_promo_discount := optMean ((skuPromoG daily k).map (·.avg_discount_pct))
    baseline_quantity := ((skuBaseG daily k).map (·.daily_quantity)).sum
    baseline_sales := ((skuBaseG daily k).map (·.daily_sales)).sum
    avg_baseline_price := listMean ((skuBaseG daily k).map (·.daily_realized_price))
    avg_rrp := optMedian ((skuG daily k).map (·.median_rrp))
    promo_status :=
      if min_promo_days ≤ (skuPromoG daily k).length ∧
          min_baseline_days ≤ (skuG daily k).length - (skuPromoG daily k).length then
        PromoStatus.on_promo
      else if min_baseline_days ≤ (skuG daily k).length - (skuPromoG daily k).length then
        PromoStatus.baseline
      else PromoStatus.insufficient_data
    uplift_pct :=
      if 0 < ((skuBaseG daily k).map (·.daily_quantity)).sum then
        some ((((skuPromoG daily k).map (·.daily_quantity)).sum -
                ((skuBaseG daily k).map (·.daily_quantity)).sum) /
              ((skuBaseG daily k).map (·.daily_quantity)).sum * 100)
      else none }

/-- PromoDetector.detect_promos (promotions.py:66-182): one row per
(store, SKU) group of the daily frame. -/
def detect_promos (txns : List Txn) : List SkuStoreRow :=
  (firsts ((detect_daily txns).map skuKey)).map (mkSkuRow (detect_daily txns))

/-! ### calculate_promo_coverage (promotions.py:184-218) -/

/-- One row of the `sku_coverage` frame. -/
structure SkuCoverageRow where
  item : Int
  descr : String
  supplier : String
  sub_department : String
  sect : String
  is_bidco : Bool
  total_stores_with_sku : Nat
  stores_with_promo : Nat
  avg_uplift_pct : Option ℚ
  avg_discount_pct : Option ℚ
  total_promo_units : ℚ
  total_baseline_units : ℚ
  promo_coverage_pct : ℚ
  deriving DecidableEq, Repr

/-- Builds the coverage row of SKU `i`.

`stores_with_promo` is
`when(promo_status == "on_promo").then(Store Name).otherwise(None).n_unique()`
(promotions.py:200-204): polars `n_unique` counts a null entry as one
distinct value, so the presence of any non-on_promo row contributes 1. -/
def mkCoverageRow (promoData : List SkuStoreRow) (i : Int) : SkuCoverageRow :=
  { item := i
    descr := ((groupOf promoData (·.item) i).map (·.descr)).headD ""
    supplier := ((groupOf promoData (·.item) i).map (·.supplier)).headD ""
    sub_department := ((groupOf promoData (·.item) i).map (·.sub_department)).headD ""
    sect := ((groupOf promoData (·.item) i).map (·.sect)).headD ""
    is_bidco := ((groupOf promoData (·.item) i).map (·.is_bidco)).headD false
    total_stores_with_sku := nUnique ((groupOf promoData (·.item) i).map (·.store))
    stores_with_promo :=
      nUnique ((groupOf promoData (·.item) i).map
        (fun r => if r.promo_status = PromoStatus.on_promo then some r.store else none))
    avg_uplift_pct := optMean ((groupOf promoData (·.item) i).map (·.uplift_pct))
    avg_discount_pct := optMean ((groupOf promoData (·.item) i).map (·.avg_promo_discount))
    total_promo_units := ((groupOf promoData (·.item) i).map (·.promo_quantity)).sum
    total_baseline_units := ((groupOf promoData (·.item) i).map (·.baseline_quantity)).sum
    promo_coverage_pct :=
      (nUnique ((groupOf promoData (·.item) i).map
          (fun r => if r.promo_status = PromoStatus.on_promo then some r.store else none)) : ℚ) /
        (nUnique ((groupOf promoData (·.item) i).map (·.store)) : ℚ) * 100 }

/-- PromoDetector.calculate_promo_coverage (promotions.py:184-218). -/
def calculate_promo_coverage (promoData : List SkuStoreRow) : List SkuCoverageRow :=
  (firsts (promoData.map (·.item))).map (mkCoverageRow promoData)

/-! ### get_supplier_summary (promotions.py:252-344) -/

/-- The supplier filter (promotions.py:260-262 and 326-328): lowercase
supplier column contains the lowercase requested string. -/
def supplier_match (sup fieldVal : String) : Bool :=
  containsSub (lowerStr fieldVal) (lowerStr sup)

/-- `supplier_data` (promotions.py:260-262). -/
def supplier_data (txns : List Txn) (sup : String) : List SkuStoreRow :=
  (detect_promos txns).filter fun r => supplier_match sup r.supplier

/-- `valid_uplifts` (promotions.py:276-279): supplier rows with non-null
uplift and on_promo status. -/
def valid_uplifts (txns : List Txn) (sup : String) : List SkuStoreRow :=
  (supplier_data txns sup).filter fun r =>
    r.uplift_pct.isSome && decide (r.promo_status = PromoStatus.on_promo)

/-- `avg_uplift` (promotions.py:281). -/
def avg_uplift (txns : List Txn) (sup : String) : Option ℚ :=
  if (valid_uplifts txns sup).isEmpty then none
  else optMean ((valid_uplifts txns sup).map (·.uplift_pct))

/-- `median_uplift` (promotions.py:282). -/
def median_uplift (txns : List Txn) (sup : String) : Option ℚ :=
  if (valid_uplifts txns sup).isEmpty then none
  else optMedian ((valid_uplifts txns sup).map (·.uplift_pct))

/-- `avg_discount` (promotions.py:284-286): the mean of
`avg_promo_discount` over all supplier rows with a non-null value —
with no restriction to on_promo status (filtering the nulls out before
the mean equals skipping them in the mean). -/
def avg_discount (txns : List Txn) (sup : String) : Option ℚ :=
  if (supplier_data txns sup).isEmpty then none
  else optMean ((supplier_data txns sup).map (·.avg_promo_discount))

/-- `total_skus` (promotions.py:272). -/
def total_skus (txns : List Txn) (sup : String) : Nat :=
  nUnique ((supplier_data txns sup).map (·.item))

/-- `skus_on_promo` (promotions.py:273). -/
def skus_on_promo (txns : List Txn) (sup : String) : Nat :=
  nUnique (((supplier_data txns sup).filter
    (fun r => decide (r.promo_status = PromoStatus.on_promo))).map (·.item))

/-- Stable insertion into a list sorted descending by `key`. -/
def insertDesc (key : α → ℚ) (a : α) : List α → List α
  | [] => [a]
  | b :: l => if key b ≤ key a then a :: b :: l else b :: insertDesc key a l

/-- Stable descending insertion sort by `key` (the embedding of
`sort("uplift_pct", descending=True)`; polars leaves the relative order
of ties unspecified, the embedding realizes one admissible order). -/
def sortDesc (key : α → ℚ) : List α → List α
  | [] => []
  | a :: l => insertDesc key a (sortDesc key l)

/-- `top_skus` (promotions.py:291): the valid-uplift rows sorted by
uplift descending, truncated to the first 5 (a literal, not
OutputConfig.top_n_items). -/
def top_skus (txns : List Txn) (sup : String) : List SkuStoreRow :=
  (sortDesc (fun r => r.uplift_pct.getD 0) (valid_uplifts txns sup)).take 5

/-- Most frequent value, first occurrence winning ties (`mode()[0]`;
polars leaves the order of the mode set unspecified). -/
def listMode (l : List String) : String :=
  (firsts l).foldl
    (fun best v => if (l.count best) < (l.count v) then v else best)
    (l.headD "Unknown")

/-- `supplier_coverage` (promotions.py:326-328). -/
def supplier_coverage (txns : List Txn) (sup : String) : List SkuCoverageRow :=
  (calculate_promo_coverage (detect_promos txns)).filter fun r =>
    supplier_match sup r.supplier

/-- `avg_coverage` (promotions.py:329). -/
def avg_coverage (txns : List Txn) (sup : String) : Option ℚ :=
  if (supplier_coverage txns sup).isEmpty then none
  else listMean ((supplier_coverage txns sup).map (·.promo_coverage_pct))

/-! ### Pydantic construction (schema.py) and the exceptions it raises -/

/-- A Python exception relevant to this code path.  In pydantic v2,
`ValidationError` subclasses `ValueError`. -/
inductive PyExc
  | valueError (msg : String)
  | validationError (msg : String)
  deriving DecidableEq, Repr

/-- Is the exception a ValueError for `except ValueError` purposes?
Both constructors are: `validationError` models pydantic
ValidationError, a ValueError subclass. -/
def PyExc.isValueErrorKind : PyExc → Bool
  | _ => true

/-- The required field names of schema.PromoDetectionResult
(schema.py:192-237: the fields declared with `Field(...)` or a bare
type and no default). -/
def promoDetectionResult_required : List String :=
  ["item_code", "description", "supplier", "sub_department", "sect_name",
   "promo_status", "promo_stores", "baseline_stores", "total_stores",
   "promo_coverage_pct"]

/-- The keyword names passed to PromoDetectionResult at
promotions.py:228-247 and (identically) at promotions.py:294-313.
`avg_rrp` is not a schema field; pydantic ignores unknown keywords by
default.  (`section` is spelled `sect_name` here; the spelling is
consistent between the two lists.) -/
def promoDetectionResult_kwargs : List String :=
  ["item_code", "description", "supplier", "store_name", "sub_department",
   "sect_name", "analysis_start_date", "analysis_end_date", "promo_days",
   "baseline_days", "promo_status", "avg_promo_price", "avg_baseline_price",
   "avg_rrp", "avg_discount_pct", "promo_units", "baseline_units",
   "promo_uplift_pct"]

/-- The required field names of schema.PromoPerformanceSummary
(schema.py:240-281).  `total_skus` may be populated through its alias
`total_skus_analyzed` (populate_by_name=True). -/
def promoPerformanceSummary_required : List String :=
  ["supplier", "analysis_date", "total_skus", "skus_on_promo", "promo_sku_pct"]

/-- The keyword names passed to PromoPerformanceSummary at
promotions.py:331-344, with the alias `total_skus_analyzed` resolved to
`total_skus`.  `analysis_date` is absent. -/
def promoPerformanceSummary_kwargs : List String :=
  ["supplier", "category", "sub_department", "total_skus", "skus_on_promo",
   "promo_sku_pct", "avg_uplift_pct", "median_uplift_pct", "avg_discount_pct",
   "avg_promo_coverage_pct", "top_performing_skus", "insights"]

/-- Pydantic required-field validation: constructing a model raises
ValidationError when some required field name is not among the keyword
names provided. -/
def pydantic_validate (required provided : List String) : Except PyExc Unit :=
  if required.all provided.contains then Except.ok ()
  else Except.error (PyExc.validationError "missing required fields")

/-- The loop body of get_promo_results (promotions.py:227-248) and of
the top-performers loop (promotions.py:293-314): each row is turned into
a PromoDetectionResult, which validates the fixed keyword set against
the schema's required fields. -/
def construct_results : List SkuStoreRow → Except PyExc (List SkuStoreRow)
  | [] => Except.ok []
  | r :: rest =>
    match pydantic_validate promoDetectionResult_required promoDetectionResult_kwargs with
    | Except.error e => Except.error e
    | Except.ok _ => (construct_results rest).map (r :: ·)

/-- PromoDetector.get_promo_results (promotions.py:220-250). -/
def get_promo_results (txns : List Txn) : Except PyExc (List SkuStoreRow) :=
  construct_results (detect_promos txns)

/-- The value get_supplier_summary would return (the fields set at
promotions.py:331-344; `analysis_date` and `methodology` are not among
them, and insight-string generation (promotions.py:346-398), which no
claim references, is not embedded). -/
structure PromoPerformanceSummary where
  supplier : String
  category : String
  sub_department : String
  total_skus : Nat
  skus_on_promo : Nat
  promo_sku_pct : ℚ
  avg_uplift_pct : Option ℚ
  median_uplift_pct : Option ℚ
  avg_discount_pct : Option ℚ
  avg_promo_coverage_pct : Option ℚ
  top_performing_skus : List SkuStoreRow
  deriving Repr

/-- PromoDetector.get_supplier_summary (promotions.py:252-344):
* raises ValueError when no supplier row matches (promotions.py:264-265);
* otherwise builds the top performers (each construction validates the
  PromoDetectionResult keyword set) and then the PromoPerformanceSummary
  (validating its keyword set, which lacks `analysis_date`). -/
def get_supplier_summary (txns : List Txn) (sup : String) :
    Except PyExc PromoPerformanceSummary :=
  if (supplier_data txns sup).isEmpty then
    Except.error (PyExc.valueError ("No data found for supplier: " ++ sup))
  else
    match
      (if (valid_uplifts txns sup).isEmpty then Except.ok []
       else construct_results (top_skus txns sup)) with
    | Except.error e => Except.error e
    | Except.ok top =>
      match pydantic_validate promoPerformanceSummary_required
          promoPerformanceSummary_kwargs with
      | Except.error e => Except.error e
      | Except.ok _ =>
        Except.ok
          { supplier := sup
            category := listMode ((supplier_data txns sup).map (·.sub_department))
            sub_department :=
              (firsts ((supplier_data txns sup).map (·.sub_department))).headD "Unknown"
            total_skus := total_skus txns sup
            skus_on_promo := skus_on_promo txns sup
            promo_sku_pct :=
              if 0 < total_skus txns sup then
                (skus_on_promo txns sup : ℚ) / (total_skus txns sup : ℚ) * 100
              else 0
            avg_uplift_pct := avg_uplift txns sup
            median_uplift_pct := median_uplift txns sup
            avg_discount_pct := avg_discount txns sup
            avg_promo_coverage_pct := avg_coverage txns sup
            top_performing_skus := top }

/-- The endpoint api/endpoints/promotions.py:16-61: `except ValueError`
maps to HTTP 404, any other exception to HTTP 500. -/
def promo_endpoint_status (txns : List Txn) (sup : String) : Nat :=
  match get_supplier_summary txns sup with
  | Except.ok _ => 200
  | Except.error e => if e.isValueErrorKind then 404 else 500

/-! ### Claim-side definitions

The following definitions do NOT come from the source: they transcribe
the cross-sectional store-counting reading of spec.md sections 4.2-4.3
(store_has_promo per (store, product) pair, store counts per product,
store-normalized uplift), to be compared against the source functions
above. -/

/-- Claim-side: the valid transactions of one (store, product) pair. -/
def spec_pair_txns (txns : List Txn) (store : String) (item : Int) : List Txn :=
  (prepared txns).filter fun t => decide (t.store = store) && decide (t.item = item)

/-- Claim-side: the mean discount percentage of a (store, product) pair
over the analysis window (spec section 4.2, step 2). -/
def spec_pair_mean_discount (txns : List Txn) (store : String) (item : Int) :
    Option ℚ :=
  optMean ((spec_pair_txns txns store item).map discount_pct)

/-- Claim-side: `store_has_promo` (spec section 4.2, step 3): the pair's
mean discount is at or above the threshold. -/
def spec_store_has_promo (txns : List Txn) (store : String) (item : Int) : Bool :=
  match spec_pair_mean_discount txns store item with
  | some v => decide (discount_threshold_pct ≤ v)
  | none => false

/-- Claim-side: the stores carrying a product. -/
def spec_stores (txns : List Txn) (item : Int) : List String :=
  firsts (((prepared txns).filter (fun t => decide (t.item = item))).map (·.store))

/-- Claim-side: `promo_stores` of a product. -/
def spec_promo_stores (txns : List Txn) (item : Int) : Nat :=
  ((spec_stores txns item).filter (fun s => spec_store_has_promo txns s item)).length

/-- Claim-side: `baseline_stores` of a product. -/
def spec_baseline_stores (txns : List Txn) (item : Int) : Nat :=
  ((spec_stores txns item).filter (fun s => !spec_store_has_promo txns s item)).length

/-- Claim-side: units of a product sold in its promoting stores. -/
def spec_promo_units (txns : List Txn) (item : Int) : ℚ :=
  (((prepared txns).filter (fun t =>
      decide (t.item = item) && spec_store_has_promo txns t.store item)).map
    (·.quantity)).sum

/-- Claim-side: units of a product sold in its baseline stores. -/
def spec_baseline_units (txns : List Txn) (item : Int) : ℚ :=
  (((prepared txns).filter (fun t =>
      decide (t.item = item) && !spec_store_has_promo txns t.store item)).map
    (·.quantity)).sum

/-- Claim-side: the uplift formula of spec section 4.3, normalized by
group store counts, defined when promo_stores ≥ 1, baseline_stores ≥ 1
and baseline_units > 0. -/
def spec_uplift_formula (txns : List Txn) (item : Int) : Option ℚ :=
  if 1 ≤ spec_promo_stores txns item ∧ 1 ≤ spec_baseline_stores txns item ∧
      0 < spec_baseline_units txns item then
    some ((spec_promo_units txns item / (spec_promo_stores txns item : ℚ) -
            spec_baseline_units txns item / (spec_baseline_stores txns item : ℚ)) /
          (spec_baseline_units txns item / (spec_baseline_stores txns item : ℚ)) * 100)
  else none

/-! ### Concrete datasets -/

/-- Product 100 in two stores, one day each: store A at 20% discount,
store B at 0%.  Claim-side this gives one promo store and one baseline
store; the source's day-level rows both miss the two-day minimums. -/
def dsA : List Txn :=
  [{ store := "A", item := 100, descr := "P100", supplier := "ACME FOODS",
     sub_department := "D", sect := "S", quantity := 10, total_sales := 80,
     rrp := some 10, sale_date := 1 },
   { store := "B", item := 100, descr := "P100", supplier := "ACME FOODS",
     sub_department := "D", sect := "S", quantity := 2, total_sales := 20,
     rrp := some 10, sale_date := 1 }]

/-- Product 200 in three stores, one day each: store A at 20% discount
(10 units), stores B and C at 0% (2 units each).  The spec formula gives
(10/1 - 4/2) / (4/2) * 100 = 400. -/
def dsB : List Txn :=
  [{ store := "A", item := 200, descr := "P200", supplier := "ACME FOODS",
     sub_department := "D", sect := "S", quantity := 10, total_sales := 80,
     rrp := some 10, sale_date := 1 },
   { store := "B", item := 200, descr := "P200", supplier := "ACME FOODS",
     sub_department := "D", sect := "S", quantity := 2, total_sales := 20,
     rrp := some 10, sale_date := 1 },
   { store := "C", item := 200, descr := "P200", supplier := "ACME FOODS",
     sub_department := "D", sect := "S", quantity := 2, total_sales := 20,
     rrp := some 10, sale_date := 1 }]

/-- A single valid transaction (null RRP). -/
def dsC : List Txn :=
  [{ store := "A", item := 1, descr := "P1", supplier := "BIDCO AFRICA",
     sub_department := "D", sect := "S", quantity := 1, total_sales := 10,
     rrp := none, sale_date := 1 }]

/-- Product 7 in a single store on two days, never discounted: zero
promoting stores. -/
def dsD : List Txn :=
  [{ store := "A", item := 7, descr := "P7", supplier := "ACME FOODS",
     sub_department := "D", sect := "S", quantity := 1, total_sales := 10,
     rrp := some 10, sale_date := 1 },
   { store := "A", item := 7, descr := "P7", supplier := "ACME FOODS",
     sub_department := "D", sect := "S", quantity := 1, total_sales := 10,
     rrp := some 10, sale_date := 2 }]

/-- Product 9 in one store on a single discounted day: its baseline
units total 0. -/
def dsE : List Txn :=
  [{ store := "A", item := 9, descr := "P9", supplier := "BIDCO AFRICA",
     sub_department := "D", sect := "S", quantity := 5, total_sales := 40,
     rrp := some 10, sale_date := 1 }]

/-- Product 3 of supplier BIDCO X in one store over four days: two days
at 20% discount (4 units), two at 0% (2 units): on_promo with uplift
100% and only 4 promotion units. -/
def dsF : List Txn :=
  [{ store := "A", item := 3, descr := "P3", supplier := "BIDCO X",
     sub_department := "D", sect := "S", quantity := 2, total_sales := 16,
     rrp := some 10, sale_date := 1 },
   { store := "A", item := 3, descr := "P3", supplier := "BIDCO X",
     sub_department := "D", sect := "S", quantity := 2, total_sales := 16,
     rrp := some 10, sale_date := 2 },
   { store := "A", item := 3, descr := "P3", supplier := "BIDCO X",
     sub_department := "D", sect := "S", quantity := 1, total_sales := 10,
     rrp := some 10, sale_date := 3 },
   { store := "A", item := 3, descr := "P3", supplier := "BIDCO X",
     sub_department := "D", sect := "S", quantity := 1, total_sales := 10,
     rrp := some 10, sale_date := 4 }]

/-- A single day of product 5 at a discount of exactly 10% (the
threshold): quantity 1 sold at 9 against an RRP of 10. -/
def dsG : List Txn :=
  [{ store := "A", item := 5, descr := "P5", supplier := "ACME FOODS",
     sub_department := "D", sect := "S", quantity := 1, total_sales := 9,
     rrp := some 10, sale_date := 1 }]

/-- Transactions of a supplier that does not match "bidco". -/
def dsH : List Txn :=
  [{ store := "A", item := 2, descr := "P2", supplier := "ACME FOODS",
     sub_department := "D", sect := "S", quantity := 1, total_sales := 10,
     rrp := some 10, sale_date := 1 },
   { store := "B", item := 2, descr := "P2", supplier := "ACME FOODS",
     sub_department := "D", sect := "S", quantity := 2, total_sales := 20,
     rrp := some 10, sale_date := 1 }]

/-- Product 11 of supplier BIDCO K in one store over three days: one day
at 20% discount, two at 0%: status baseline (one promo day is below the
minimum), with a non-null promo-day discount of 20%. -/
def dsI : List Txn :=
  [{ store := "A", item := 11, descr := "P11", supplier := "BIDCO K",
     sub_department := "D", sect := "S", quantity := 2, total_sales := 16,
     rrp := some 10, sale_date := 1 },
   { store := "A", item := 11, descr := "P11", supplier := "BIDCO K",
     sub_department := "D", sect := "S", quantity := 1, total_sales := 10,
     rrp := some 10, sale_date := 2 },
   { store := "A", item := 11, descr := "P11", supplier := "BIDCO K",
     sub_department := "D", sect := "S", quantity := 1, total_sales := 10,
     rrp := some 10, sale_date := 3 }]

/-! ### Supporting lemmas -/

theorem mem_of_mem_firstsAux [DecidableEq α] :
    ∀ (seen l : List α) (a : α), a ∈ firstsAux seen l → a ∈ l := by
  intro seen l
  induction l generalizing seen with
  | nil => intro a h; simp [firstsAux] at h
  | cons b l ih =>
    intro a h
    rw [firstsAux] at h
    by_cases hb : b ∈ seen
    · rw [if_pos hb] at h
      exact List.mem_cons_of_mem b (ih seen a h)
    · rw [if_neg hb] at h
      rcases List.mem_cons.mp h with h | h
      · exact h ▸ List.mem_cons_self b l
      · exact List.mem_cons_of_mem b (ih (b :: seen) a h)

theorem mem_of_mem_firsts [DecidableEq α] {l : List α} {a : α}
    (h : a ∈ firsts l) : a ∈ l :=
  mem_of_mem_firstsAux [] l a h

theorem groupOf_ne_nil [DecidableEq κ] {l : List β} {key : β → κ} {k : κ}
    (h : k ∈ firsts (l.map key)) : groupOf l key k ≠ [] := by
  obtain ⟨x, hx, hkx⟩ := List.mem_map.mp (mem_of_mem_firsts h)
  have : x ∈ groupOf l key k := List.mem_filter.mpr ⟨hx, by simp [hkx]⟩
  exact List.ne_nil_of_mem this

theorem mem_detect_daily {txns : List Txn} {d : DailyRow} (h : d ∈ detect_daily txns) :
    ∃ k, k ∈ firsts ((prepared txns).map dailyKey) ∧ mkDailyRow (prepared txns) k = d :=
  List.mem_map.mp h

theorem mem_detect_promos {txns : List Txn} {r : SkuStoreRow} (h : r ∈ detect_promos txns) :
    ∃ k, k ∈ firsts ((detect_daily txns).map skuKey) ∧ mkSkuRow (detect_daily txns) k = r :=
  List.mem_map.mp h

/-- After validity filtering every quantity is positive. -/
theorem prepared_quantity_pos {txns : List Txn} {t : Txn} (h : t ∈ prepared txns) :
    0 < t.quantity := by
  rw [prepared, filter_valid_transactions, List.mem_filter] at h
  rcases h with ⟨-, h⟩
  simp only [Bool.false_or, Bool.and_eq_true, decide_eq_true_eq] at h
  exact lt_of_le_of_ne h.1.1 (Ne.symm h.2.1)

/-- Every daily quantity is a sum of positive quantities. -/
theorem daily_quantity_nonneg {txns : List Txn} {d : DailyRow}
    (h : d ∈ detect_daily txns) : 0 ≤ d.daily_quantity := by
  obtain ⟨k, -, rfl⟩ := mem_detect_daily h
  show 0 ≤ ((groupOf (prepared txns) dailyKey k).map (·.quantity)).sum
  apply List.sum_nonneg
  intro x hx
  obtain ⟨t, ht, rfl⟩ := List.mem_map.mp hx
  exact le_of_lt (prepared_quantity_pos (List.mem_of_mem_filter ht))

/-- Every per-(store, SKU) baseline quantity is nonnegative. -/
theorem baseline_quantity_nonneg {txns : List Txn} {r : SkuStoreRow}
    (h : r ∈ detect_promos txns) : 0 ≤ r.baseline_quantity := by
  obtain ⟨k, -, rfl⟩ := mem_detect_promos h
  show 0 ≤ ((skuBaseG (detect_daily txns) k).map (·.daily_quantity)).sum
  apply List.sum_nonneg
  intro x hx
  obtain ⟨d, hd, rfl⟩ := List.mem_map.mp hx
  exact daily_quantity_nonneg (List.mem_of_mem_filter (List.mem_of_mem_filter hd))

/-- The uplift column in terms of the row's own quantity columns
(promotions.py:171-180). -/
theorem mkSkuRow_uplift (daily : List DailyRow) (k : String × Int) :
    (mkSkuRow daily k).uplift_pct =
      if 0 < (mkSkuRow daily k).baseline_quantity then
        some (((mkSkuRow daily k).promo_quantity -
                (mkSkuRow daily k).baseline_quantity) /
              (mkSkuRow daily k).baseline_quantity * 100)
      else none := rfl

/-- The status column in terms of the row's own day counts
(promotions.py:158-169). -/
theorem mkSkuRow_status (daily : List DailyRow) (k : String × Int) :
    (mkSkuRow daily k).promo_status =
      if min_promo_days ≤ (mkSkuRow daily k).promo_days ∧
          min_baseline_days ≤ (mkSkuRow daily k).baseline_days then
        PromoStatus.on_promo
      else if min_baseline_days ≤ (mkSkuRow daily k).baseline_days then
        PromoStatus.baseline
      else PromoStatus.insufficient_data := rfl

/-- The promo-day flag in terms of the day's own mean discount
(promotions.py:87-92). -/
theorem mkDailyRow_is_promo_day (l : List Txn) (k : String × Int × Int) :
    (mkDailyRow l k).is_promo_day =
      match (mkDailyRow l k).avg_discount_pct with
      | some v => decide (discount_threshold_pct ≤ v)
      | none => false := rfl

/-- The uplift of a detect_promos row in terms of its own quantity
columns (shared helper). -/
theorem uplift_pct_eq {txns : List Txn} {r : SkuStoreRow}
    (h : r ∈ detect_promos txns) :
    r.uplift_pct =
      if 0 < r.baseline_quantity then
        some ((r.promo_quantity - r.baseline_quantity) /
          r.baseline_quantity * 100)
      else none := by
  obtain ⟨k, -, rfl⟩ := mem_detect_promos h
  exact mkSkuRow_uplift _ _

/-- Descending insertion preserves length. -/
theorem length_insertDesc (key : α → ℚ) (a : α) (l : List α) :
    (insertDesc key a l).length = l.length + 1 := by
  induction l with
  | nil => rfl
  | cons b l ih =>
    rw [insertDesc]
    by_cases h : key b ≤ key a
    · rw [if_pos h]; rfl
    · rw [if_neg h]
      simp [List.length_cons, ih]

/-- Descending sort preserves length. -/
theorem length_sortDesc (key : α → ℚ) (l : List α) :
    (sortDesc key l).length = l.length := by
  induction l with
  | nil => rfl
  | cons b l ih =>
    rw [sortDesc, length_insertDesc, ih]
    rfl

/-- The supplier column of a daily row is the supplier of some
transaction of the dataset (Expr.first over a non-empty group). -/
theorem daily_supplier_from {txns : List Txn} {d : DailyRow}
    (h : d ∈ detect_daily txns) : ∃ t ∈ txns, d.supplier = t.supplier := by
  obtain ⟨k, hk, rfl⟩ := mem_detect_daily h
  obtain ⟨t, rest, hg⟩ := List.exists_cons_of_ne_nil (groupOf_ne_nil hk)
  refine ⟨t, ?_, ?_⟩
  · have ht : t ∈ groupOf (prepared txns) dailyKey k := by
      rw [hg]; exact List.mem_cons_self t rest
    exact List.mem_of_mem_filter (List.mem_of_mem_filter ht)
  · show ((groupOf (prepared txns) dailyKey k).map (·.supplier)).headD "" = t.supplier
    rw [hg]; rfl

/-- The supplier column of a (store, SKU) row is the supplier of some
transaction of the dataset. -/
theorem sku_supplier_from {txns : List Txn} {r : SkuStoreRow}
    (h : r ∈ detect_promos txns) : ∃ t ∈ txns, r.supplier = t.supplier := by
  obtain ⟨k, hk, rfl⟩ := mem_detect_promos h
  obtain ⟨d, rest, hg⟩ := List.exists_cons_of_ne_nil (groupOf_ne_nil hk)
  have hd : d ∈ detect_daily txns := by
    have : d ∈ skuG (detect_daily txns) k := by
      rw [skuG, hg]; exact List.mem_cons_self d rest
    exact List.mem_of_mem_filter this
  obtain ⟨t, ht, hts⟩ := daily_supplier_from hd
  refine ⟨t, ht, ?_⟩
  show ((skuG (detect_daily txns) k).map (·.supplier)).headD "" = t.supplier
  rw [skuG, hg]
  exact hts

/-- A list of nonnegative rationals with zero sum is pointwise zero. -/
theorem eq_zero_of_mem_of_sum_eq_zero {l : List ℚ} (hpos : ∀ x ∈ l, 0 ≤ x)
    (hsum : l.sum = 0) : ∀ x ∈ l, x = 0 := by
  intro x hx
  have hle : x ≤ l.sum := List.single_le_sum hpos x hx
  exact le_antisymm (hsum ▸ hle) (hpos x hx)

/-- Membership in a descending insertion. -/
theorem mem_insertDesc {key : α → ℚ} {a b : α} {l : List α} :
    b ∈ insertDesc key a l ↔ b = a ∨ b ∈ l := by
  induction l with
  | nil => simp [insertDesc]
  | cons c l ih =>
    rw [insertDesc]
    by_cases h : key c ≤ key a
    · rw [if_pos h]
      simp [List.mem_cons]
    · rw [if_neg h]
      simp only [List.mem_cons, ih]
      tauto

/-- Membership in the descending sort. -/
theorem mem_sortDesc {key : α → ℚ} {a : α} {l : List α} :
    a ∈ sortDesc key l ↔ a ∈ l := by
  induction l with
  | nil => simp [sortDesc]
  | cons b l ih =>
    rw [sortDesc, mem_insertDesc]
    simp [List.mem_cons, ih]

/-- Inserting into a descending-sorted list keeps it sorted. -/
theorem pairwise_insertDesc {key : α → ℚ} {a : α} {l : List α}
    (h : l.Pairwise (fun x y => key y ≤ key x)) :
    (insertDesc key a l).Pairwise (fun x y => key y ≤ key x) := by
  induction l with
  | nil => simp [insertDesc]
  | cons b l ih =>
    rw [insertDesc]
    rcases List.pairwise_cons.mp h with ⟨hb, hl⟩
    by_cases hba : key b ≤ key a
    · rw [if_pos hba]
      refine List.pairwise_cons.mpr ⟨?_, h⟩
      intro y hy
      rcases List.mem_cons.mp hy with rfl | hy
      · exact hba
      · exact le_trans (hb y hy) hba
    · rw [if_neg hba]
      refine List.pairwise_cons.mpr ⟨?_, ih hl⟩
      intro y hy
      rcases mem_insertDesc.mp hy with rfl | hy
      · exact le_of_lt (lt_of_not_le hba)
      · exact hb y hy

/-- The descending sort is sorted. -/
theorem pairwise_sortDesc (key : α → ℚ) (l : List α) :
    (sortDesc key l).Pairwise (fun x y => key y ≤ key x) := by
  induction l with
  | nil => simp [sortDesc]
  | cons b l ih => exact pairwise_insertDesc ih

/-- The mean of a non-empty list is not null. -/
theorem listMean_isSome {l : List ℚ} (h : l ≠ []) : (listMean l).isSome := by
  rw [listMean, if_neg (by simpa using h)]
  rfl

/-- Ascending insertion preserves length. -/
theorem length_insertAsc (a : ℚ) (l : List ℚ) :
    (insertAsc a l).length = l.length + 1 := by
  induction l with
  | nil => rfl
  | cons b l ih =>
    rw [insertAsc]
    by_cases h : a ≤ b
    · rw [if_pos h]; rfl
    · rw [if_neg h]
      simp [List.length_cons, ih]

/-- The ascending sort preserves length. -/
theorem length_sortAsc (l : List ℚ) : (sortAsc l).length = l.length := by
  induction l with
  | nil => rfl
  | cons b l ih =>
    rw [sortAsc, length_insertAsc, ih]
    rfl

/-- The median of a non-empty list is not null. -/
theorem listMedian_isSome {l : List ℚ} (h : l ≠ []) : (listMedian l).isSome := by
  rw [listMedian]
  have hn : (sortAsc l).length ≠ 0 := by
    rw [length_sortAsc]
    simpa using h
  simp only [if_neg hn]
  by_cases hodd : (sortAsc l).length % 2 = 1
  · rw [if_pos hodd]; rfl
  · rw [if_neg hodd]; rfl

/-! ### Claim C1 -/

/-- C1, counterexample: in dsA, product 100 has one promoting store and
one baseline store in the claim's (spec) reading, so the claim requires
status on_promo; the code's detect_promos produces no on_promo row at
all for this dataset (it classifies each (store, product) pair by day
counts, and every pair misses the two-day minimums). -/
theorem C1_counterexample :
    spec_promo_stores dsA 100 = 1 ∧ spec_baseline_stores dsA 100 = 1 ∧
    ((detect_promos dsA).all fun r =>
      decide (r.promo_status ≠ PromoStatus.on_promo)) = true := by
  decide

/-- C1, amended: promotion status is computed per (store, product) pair
by counting qualifying days: on_promo exactly when promo_days ≥
min_promo_days (2) and baseline_days ≥ min_baseline_days (2); baseline
exactly when that fails but baseline_days ≥ min_baseline_days; otherwise
insufficient_data.  The three states are mutually exclusive and
exhaustive per row. -/
theorem C1_status_state_machine (txns : List Txn) (r : SkuStoreRow)
    (h : r ∈ detect_promos txns) :
    (r.promo_status = PromoStatus.on_promo ↔
      (min_promo_days ≤ r.promo_days ∧ min_baseline_days ≤ r.baseline_days)) ∧
    (r.promo_status = PromoStatus.baseline ↔
      (¬(min_promo_days ≤ r.promo_days ∧ min_baseline_days ≤ r.baseline_days) ∧
        min_baseline_days ≤ r.baseline_days)) ∧
    (r.promo_status = PromoStatus.insufficient_data ↔
      (¬(min_promo_days ≤ r.promo_days ∧ min_baseline_days ≤ r.baseline_days) ∧
        ¬min_baseline_days ≤ r.baseline_days)) := by
  obtain ⟨k, -, rfl⟩ := mem_detect_promos h
  rw [mkSkuRow_status]
  by_cases h1 : min_promo_days ≤ (mkSkuRow (detect_daily txns) k).promo_days ∧
      min_baseline_days ≤ (mkSkuRow (detect_daily txns) k).baseline_days
  · rw [if_pos h1]
    simp [h1]
  · rw [if_neg h1]
    by_cases h2 : min_baseline_days ≤ (mkSkuRow (detect_daily txns) k).baseline_days
    · rw [if_pos h2]
      exact ⟨⟨fun hc => PromoStatus.noConfusion hc, fun hpq => absurd hpq h1⟩,
             ⟨fun _ => ⟨h1, h2⟩, fun _ => rfl⟩,
             ⟨fun hc => PromoStatus.noConfusion hc, fun hpq => absurd h2 hpq.2⟩⟩
    · rw [if_neg h2]
      exact ⟨⟨fun hc => PromoStatus.noConfusion hc, fun hpq => absurd hpq h1⟩,
             ⟨fun hc => PromoStatus.noConfusion hc, fun hpq => absurd hpq.2 h2⟩,
             ⟨fun _ => ⟨h1, h2⟩, fun _ => rfl⟩⟩

/-- The (store A, product 100) row of dsA. -/
def rowA100 : SkuStoreRow := mkSkuRow (detect_daily dsA) ("A", 100)

theorem C1_witness :
    rowA100 ∈ detect_promos dsA ∧
    ((rowA100.promo_status = PromoStatus.on_promo ↔
        (min_promo_days ≤ rowA100.promo_days ∧
          min_baseline_days ≤ rowA100.baseline_days)) ∧
      (rowA100.promo_status = PromoStatus.baseline ↔
        (¬(min_promo_days ≤ rowA100.promo_days ∧
            min_baseline_days ≤ rowA100.baseline_days) ∧
          min_baseline_days ≤ rowA100.baseline_days)) ∧
      (rowA100.promo_status = PromoStatus.insufficient_data ↔
        (¬(min_promo_days ≤ rowA100.promo_days ∧
            min_baseline_days ≤ rowA100.baseline_days) ∧
          ¬min_baseline_days ≤ rowA100.baseline_days))) :=
  ⟨by decide, C1_status_state_machine dsA rowA100 (by decide)⟩

/-! ### Claim C2 -/

/-- C2, counterexample: in dsB, product 200 satisfies the claim's
preconditions (promo_stores = 1 ≥ 1, baseline_stores = 2 ≥ 1,
baseline_units = 4 > 0) and the claimed store-normalized formula yields
400; no uplift value the code computes for this product equals 400 (the
code computes uplift per (store, product) from day totals, without
store-count normalization). -/
theorem C2_counterexample :
    spec_promo_stores dsB 200 = 1 ∧ spec_baseline_stores dsB 200 = 2 ∧
    spec_baseline_units dsB 200 = 4 ∧
    spec_uplift_formula dsB 200 = some 400 ∧
    ((detect_promos dsB).all fun r => decide (r.uplift_pct ≠ some 400)) = true := by
  decide

/-- C2, amended: for every (store, product) row, whenever its baseline
units are positive the uplift equals (promo_units - baseline_units) /
baseline_units * 100, where both unit totals are this store's day-level
sums (0 when no such day); otherwise the uplift is null.  No
normalization by store counts occurs. -/
theorem C2_uplift_formula (txns : List Txn) (r : SkuStoreRow)
    (h : r ∈ detect_promos txns) :
    r.uplift_pct =
      if 0 < r.baseline_quantity then
        some ((r.promo_quantity - r.baseline_quantity) /
          r.baseline_quantity * 100)
      else none :=
  uplift_pct_eq h

/-- The (store B, product 200) row of dsB. -/
def rowB200 : SkuStoreRow := mkSkuRow (detect_daily dsB) ("B", 200)

theorem C2_witness :
    rowB200 ∈ detect_promos dsB ∧
    rowB200.uplift_pct =
      (if 0 < rowB200.baseline_quantity then
        some ((rowB200.promo_quantity - rowB200.baseline_quantity) /
          rowB200.baseline_quantity * 100)
      else none) :=
  ⟨by decide, C2_uplift_formula dsB rowB200 (by decide)⟩

/-! ### Claim C8 -/

/-- C8, counterexample: in dsG the (store A, product 5) pair has mean
discount exactly 10 = threshold, so the claim says the pair is
classified as promoting; the code classifies no row of dsG as on_promo
(the threshold is applied per day, and a single promo day is below
min_promo_days). -/
theorem C8_counterexample :
    spec_pair_mean_discount dsG "A" 5 = some 10 ∧
    spec_store_has_promo dsG "A" 5 = true ∧
    ((detect_promos dsG).all fun r =>
      decide (r.promo_status ≠ PromoStatus.on_promo)) = true := by
  decide

/-- C8, amended: the inclusive threshold lives at the day level: a
(store, product, day) group is flagged as a promo day exactly when its
mean discount is non-null and ≥ the configured threshold (default
10.0), so a mean discount exactly equal to the threshold is flagged
(≥, not >). -/
theorem C8_day_threshold_inclusive (txns : List Txn) (d : DailyRow)
    (h : d ∈ detect_daily txns) :
    d.is_promo_day = true ↔
      ∃ v, d.avg_discount_pct = some v ∧ discount_threshold_pct ≤ v := by
  obtain ⟨k, -, rfl⟩ := mem_detect_daily h
  rw [mkDailyRow_is_promo_day]
  cases hv : (mkDailyRow (prepared txns) k).avg_discount_pct with
  | none => simp
  | some v => simp [hv]

/-- The (store A, product 5, day 1) daily row of dsG: mean discount
exactly 10. -/
def dayG5 : DailyRow := mkDailyRow (prepared dsG) ("A", 5, 1)

theorem C8_witness :
    dayG5 ∈ detect_daily dsG ∧
    (dayG5.is_promo_day = true ↔
      ∃ v, dayG5.avg_discount_pct = some v ∧ discount_threshold_pct ≤ v) :=
  ⟨by decide, C8_day_threshold_inclusive dsG dayG5 (by decide)⟩

/-! ### Claim C3 -/

/-- C3: whenever the grouped analysis table is non-empty,
get_promo_results raises a pydantic ValidationError instead of returning
the result list: every PromoDetectionResult construction at
promotions.py:228-247 omits the fields promo_stores, baseline_stores,
total_stores and promo_coverage_pct that schema.py:192-237 marks
required. -/
theorem C3_get_promo_results_raises (txns : List Txn)
    (h : detect_promos txns ≠ []) :
    ∃ e, get_promo_results txns = Except.error e := by
  obtain ⟨r, rest, hr⟩ := List.exists_cons_of_ne_nil h
  refine ⟨PyExc.validationError "missing required fields", ?_⟩
  rw [get_promo_results, hr]
  rfl

theorem C3_witness :
    detect_promos dsC ≠ [] ∧ ∃ e, get_promo_results dsC = Except.error e :=
  ⟨by decide, C3_get_promo_results_raises dsC (by decide)⟩

/-! ### Claim C4 -/

/-- C4: get_supplier_summary never returns a summary: when no row
matches the supplier it raises ValueError, and otherwise it raises a
pydantic ValidationError — either from a top-performer
PromoDetectionResult construction (missing required cross-sectional
fields) or from the PromoPerformanceSummary construction
(promotions.py:331-344 passes no analysis_date, which
schema.py:240-281 marks required). -/
theorem C4_get_supplier_summary_raises (txns : List Txn) (sup : String) :
    ∃ e, get_supplier_summary txns sup = Except.error e := by
  rw [get_supplier_summary]
  by_cases hsd : (supplier_data txns sup).isEmpty
  · rw [if_pos hsd]
    exact ⟨_, rfl⟩
  · rw [if_neg hsd]
    by_cases hvu : (valid_uplifts txns sup).isEmpty
    · rw [if_pos hvu]
      exact ⟨_, rfl⟩
    · rw [if_neg hvu]
      have hvn : valid_uplifts txns sup ≠ [] := by
        intro hc
        rw [hc] at hvu
        exact hvu rfl
      have hts : top_skus txns sup ≠ [] := by
        intro hc
        have hlen := congrArg List.length hc
        rw [top_skus, List.length_take, length_sortDesc] at hlen
        rcases Nat.min_eq_zero_iff.mp hlen with h5 | h0
        · exact absurd h5 (by decide)
        · exact hvn (List.length_eq_zero.mp h0)
      obtain ⟨r, rest, hr⟩ := List.exists_cons_of_ne_nil hts
      rw [hr]
      exact ⟨_, rfl⟩

/-! ### Claim C5 -/

/-- C5: in dsD product 7 has no promoting store at all (no row is
on_promo), yet the code reports promo_coverage_pct = 100 for it: the
`otherwise(None).n_unique()` at promotions.py:200-204 counts the null
placeholder of the non-promoting store as one distinct store.  The
claim (coverage 0 exactly when no store promotes) fails. -/
theorem C5_coverage_without_promo_stores :
    ((detect_promos dsD).all fun r =>
      decide (r.promo_status ≠ PromoStatus.on_promo)) = true ∧
    (calculate_promo_coverage (detect_promos dsD)).map (·.promo_coverage_pct) =
      [100] := by
  decide

/-! ### Claim C6 -/

/-- C6: when the baseline units of a product total 0 across its rows,
every row of the product has null uplift (not zero, not a division
error), and no row of the product enters valid_uplifts — the set over
which the supplier summary's average and median uplift are computed. -/
theorem C6_null_uplift_propagation (txns : List Txn) (sup : String) (item : Int)
    (h : (((detect_promos txns).filter fun r =>
        decide (r.item = item)).map (·.baseline_quantity)).sum = 0) :
    (((detect_promos txns).filter fun r => decide (r.item = item)).all
        fun r => decide (r.uplift_pct = none)) = true ∧
    ((valid_uplifts txns sup).all fun r => decide (r.item ≠ item)) = true := by
  have hz : ∀ r ∈ (detect_promos txns).filter (fun r => decide (r.item = item)),
      r.baseline_quantity = 0 := by
    intro r hr
    have hmem : r.baseline_quantity ∈
        ((detect_promos txns).filter fun r =>
          decide (r.item = item)).map (·.baseline_quantity) :=
      List.mem_map_of_mem _ hr
    refine eq_zero_of_mem_of_sum_eq_zero ?_ h _ hmem
    intro x hx
    obtain ⟨s, hs, rfl⟩ := List.mem_map.mp hx
    exact baseline_quantity_nonneg (List.mem_of_mem_filter hs)
  have hnone : ∀ r ∈ detect_promos txns, r.item = item → r.uplift_pct = none := by
    intro r hr hitem
    have hb : r.baseline_quantity = 0 :=
      hz r (List.mem_filter.mpr ⟨hr, by simp [hitem]⟩)
    rw [uplift_pct_eq hr, hb]
    exact if_neg (lt_irrefl 0)
  constructor
  · refine List.all_eq_true.mpr ?_
    intro r hr
    rcases List.mem_filter.mp hr with ⟨hmem, hitem⟩
    exact decide_eq_true (hnone r hmem (of_decide_eq_true hitem))
  · refine List.all_eq_true.mpr ?_
    intro r hr
    rcases List.mem_filter.mp hr with ⟨hsd, hp⟩
    simp only [Bool.and_eq_true] at hp
    have hsome : r.uplift_pct.isSome = true := hp.1
    have hmem : r ∈ detect_promos txns := List.mem_of_mem_filter hsd
    refine decide_eq_true fun hitem => ?_
    rw [hnone r hmem hitem] at hsome
    exact Bool.noConfusion hsome

theorem C6_witness :
    ((((detect_promos dsE).filter fun r =>
        decide (r.item = 9)).map (·.baseline_quantity)).sum = 0) ∧
    ((((detect_promos dsE).filter fun r => decide (r.item = 9)).all
        fun r => decide (r.uplift_pct = none)) = true ∧
      ((valid_uplifts dsE "bidco").all fun r => decide (r.item ≠ 9)) = true) :=
  ⟨by decide, C6_null_uplift_propagation dsE "bidco" 9 (by decide)⟩

/-! ### Claim C7 -/

/-- C7: when no transaction's supplier matches the requested string
(case-insensitive substring), get_supplier_summary raises the ValueError
"No data found for supplier: ..." — not an empty summary — and the API
layer's `except ValueError` maps it to HTTP 404, not 500. -/
theorem C7_supplier_not_found (txns : List Txn) (sup : String)
    (h : (txns.all fun t => !supplier_match sup t.supplier) = true) :
    get_supplier_summary txns sup =
      Except.error (PyExc.valueError ("No data found for supplier: " ++ sup)) ∧
    promo_endpoint_status txns sup = 404 := by
  have hsd : supplier_data txns sup = [] := by
    rw [supplier_data, List.filter_eq_nil_iff]
    intro r hr
    obtain ⟨t, ht, hts⟩ := sku_supplier_from hr
    have hmatch := List.all_eq_true.mp h t ht
    rw [hts]
    simpa using hmatch
  have hs : get_supplier_summary txns sup =
      Except.error (PyExc.valueError ("No data found for supplier: " ++ sup)) := by
    rw [get_supplier_summary, hsd]
    rfl
  refine ⟨hs, ?_⟩
  rw [promo_endpoint_status, hs]
  rfl

theorem C7_witness :
    (dsH.all fun t => !supplier_match "bidco" t.supplier) = true ∧
    (get_supplier_summary dsH "bidco" =
        Except.error (PyExc.valueError ("No data found for supplier: " ++ "bidco")) ∧
      promo_endpoint_status dsH "bidco" = 404) :=
  ⟨by decide, C7_supplier_not_found dsH "bidco" (by decide)⟩

/-! ### Claim C9 -/

/-- C9, counterexample: in dsI the supplier has no on_promo entry at all
(valid_uplifts is empty, every supplier row has a non-on_promo status),
yet avg_discount is 20 — taken from a baseline-status row's promo-day
discount.  The average discount is therefore not computed only over
on_promo entries with non-null uplift, which would yield no value
here. -/
theorem C9_counterexample :
    valid_uplifts dsI "bidco" = [] ∧
    ((supplier_data dsI "bidco").all fun r =>
      decide (r.promo_status ≠ PromoStatus.on_promo)) = true ∧
    avg_discount dsI "bidco" = some 20 := by
  decide

/-- C9, amended: the average and median uplift are computed only over
the supplier's entries in on_promo status with non-null uplift (and are
null exactly when no such entry exists), but the average discount is
computed over all the supplier's entries with a non-null promo-day
discount, regardless of status and uplift. -/
theorem C9_summary_stats_population (txns : List Txn) (sup : String) :
    ((valid_uplifts txns sup).all fun r =>
      r.uplift_pct.isSome && decide (r.promo_status = PromoStatus.on_promo)) = true ∧
    (avg_uplift txns sup = none ↔ valid_uplifts txns sup = []) ∧
    (median_uplift txns sup = none ↔ valid_uplifts txns sup = []) ∧
    avg_discount txns sup =
      (if (supplier_data txns sup).isEmpty then none
       else optMean ((supplier_data txns sup).map (·.avg_promo_discount))) := by
  have hval : ∀ r ∈ valid_uplifts txns sup,
      (r.uplift_pct.isSome && decide (r.promo_status = PromoStatus.on_promo)) = true :=
    fun r hr => (List.mem_filter.mp hr).2
  refine ⟨List.all_eq_true.mpr hval, ?_, ?_, rfl⟩
  · rw [avg_uplift]
    by_cases hvu : (valid_uplifts txns sup).isEmpty
    · rw [if_pos hvu]
      simp [List.isEmpty_iff.mp hvu]
    · rw [if_neg hvu]
      have hvn : valid_uplifts txns sup ≠ [] := fun hc => hvu (by rw [hc]; rfl)
      obtain ⟨r, rest, hr⟩ := List.exists_cons_of_ne_nil hvn
      have hsome : r.uplift_pct.isSome = true := by
        have := hval r (by rw [hr]; exact List.mem_cons_self r rest)
        rw [Bool.and_eq_true] at this
        exact this.1
      obtain ⟨v, hv⟩ := Option.isSome_iff_exists.mp hsome
      have hne : optMean ((valid_uplifts txns sup).map (·.uplift_pct)) ≠ none := by
        rw [hr]
        simp only [List.map_cons, hv, optMean, List.reduceOption_cons_of_some]
        intro hc
        have := listMean_isSome (l := v :: (rest.map (·.uplift_pct)).reduceOption)
          (List.cons_ne_nil _ _)
        rw [hc] at this
        exact Bool.noConfusion this
      exact ⟨fun hc => absurd hc hne, fun hc => absurd hc hvn⟩
  · rw [median_uplift]
    by_cases hvu : (valid_uplifts txns sup).isEmpty
    · rw [if_pos hvu]
      simp [List.isEmpty_iff.mp hvu]
    · rw [if_neg hvu]
      have hvn : valid_uplifts txns sup ≠ [] := fun hc => hvu (by rw [hc]; rfl)
      obtain ⟨r, rest, hr⟩ := List.exists_cons_of_ne_nil hvn
      have hsome : r.uplift_pct.isSome = true := by
        have := hval r (by rw [hr]; exact List.mem_cons_self r rest)
        rw [Bool.and_eq_true] at this
        exact this.1
      obtain ⟨v, hv⟩ := Option.isSome_iff_exists.mp hsome
      have hne : optMedian ((valid_uplifts txns sup).map (·.uplift_pct)) ≠ none := by
        rw [hr]
        simp only [List.map_cons, hv, optMedian, List.reduceOption_cons_of_some]
        intro hc
        have := listMedian_isSome (l := v :: (rest.map (·.uplift_pct)).reduceOption)
          (List.cons_ne_nil _ _)
        rw [hc] at this
        exact Bool.noConfusion this
      exact ⟨fun hc => absurd hc hne, fun hc => absurd hc hvn⟩

/-! ### Claim C10 -/

/-- C10, counterexample: in dsF the top-performers list contains the
single on_promo entry of the supplier, whose promotion volume is 4
units — far below the claimed 50-unit floor.  The code applies no
minimum-volume filter (and truncates at the literal 5, not
top_n_items = 10). -/
theorem C10_counterexample :
    ((top_skus dsF "bidco").map (·.promo_quantity) = [4]) ∧
    (((top_skus dsF "bidco").any fun r =>
      decide (r.promo_quantity < 50)) = true) := by
  decide

/-- C10, amended: the top-performers list consists of entries drawn from
valid_uplifts (the supplier's on_promo rows with non-null uplift),
sorted by uplift descending, truncated to at most 5 entries; no
minimum promotion-volume floor is applied and ties are not broken by
product identifier (their relative order is unspecified in the code). -/
theorem C10_top_performers (txns : List Txn) (sup : String) :
    (top_skus txns sup).length ≤ 5 ∧
    ((top_skus txns sup).all fun r =>
      decide (r ∈ valid_uplifts txns sup)) = true ∧
    (top_skus txns sup).Pairwise
      (fun a b => b.uplift_pct.getD 0 ≤ a.uplift_pct.getD 0) := by
  refine ⟨?_, ?_, ?_⟩
  · rw [top_skus]
    exact List.length_take_le _ _
  · refine List.all_eq_true.mpr ?_
    intro r hr
    refine decide_eq_true ?_
    have hmem : r ∈ sortDesc (fun r => r.uplift_pct.getD 0) (valid_uplifts txns sup) :=
      List.mem_of_mem_take hr
    exact mem_sortDesc.mp hmem
  · exact List.Pairwise.sublist (List.take_sublist _ _) (pairwise_sortDesc _ _)

end Bidco
